import Mathlib

/-!
Verification of the rust-igd UPnP Internet Gateway Device client.

This file gives a shallow embedding, in Lean, of the claim-relevant parts of
the repository:

* `src/common/parsing.rs` — SSDP search-result parsing, device-tree control-URL
  resolution, the SOAP response-envelope parser and GetGenericPortMappingEntry
  decoding;
* `src/async/gateway.rs` — the `add_any_port` / `add_port` port-mapping
  negotiation state machine (including the `RetryIf`-based random-port retry
  loop and the same-port fallback);
* `src/aio/search.rs` — the concurrent `SearchFuture::poll` discovery step.

External collaborators (the XML tree parser, the URL parser, the UTF-8 decoder,
the HTTP and UDP transports, and the `tokio_retry` retry combinator) are
modelled at their documented boundaries: XML parsing of a byte body is
represented by an `Option Element` argument, URL parsing follows the rust-url
behaviour for plain http URLs, and `RetryIf::spawn` with a strategy of `n`
items runs the action once and then retries at most `n` times while the retry
condition holds.  Rust's `u16`/`u32` `FromStr` parsing is reproduced exactly
(optional leading `+`, decimal digits only, bounded).  Randomness is made
explicit as a stream `rng : Nat → Nat` of successively drawn candidate ports,
and every network request a negotiation function issues is accumulated in an
explicit trace so that counting properties can be stated.
-/

namespace Igd

/-- Protocols available for port mapping, from `PortMappingProtocol` in
`src/lib.rs`. -/
inductive PortMappingProtocol where
  | TCP
  | UDP
deriving Repr, DecidableEq

/-- Low-level request errors, from `RequestError` in `src/errors.rs`.
The `hyper::Error` and `io::Error` payloads are abstracted to strings. -/
inductive RequestError where
  | HttpError (msg : String)
  | IoError (msg : String)
  | InvalidResponse (text : String)
  | ErrorCode (code : Nat) (description : String)
deriving Repr, DecidableEq

/-- Errors of `Gateway::add_any_port`, from `AddAnyPortError` in
`src/errors.rs`. -/
inductive AddAnyPortError where
  | ActionNotAuthorized
  | InternalPortZeroInvalid
  | NoPortsAvailable
  | ExternalPortInUse
  | OnlyPermanentLeasesSupported
  | DescriptionTooLong
  | RequestError (e : RequestError)
deriving Repr, DecidableEq

/-- Errors of `Gateway::add_port`, from `AddPortError` in `src/errors.rs`. -/
inductive AddPortError where
  | ActionNotAuthorized
  | InternalPortZeroInvalid
  | ExternalPortZeroInvalid
  | PortInUse
  | SamePortValuesRequired
  | OnlyPermanentLeasesSupported
  | DescriptionTooLong
  | RequestError (e : RequestError)
deriving Repr, DecidableEq

/-- Discovery-phase errors, from `SearchError` in `src/errors.rs`.  The
`hyper::Error`, `io::Error`, `Utf8Error` and XML error payloads are abstracted
to strings. -/
inductive SearchError where
  | HttpError (msg : String)
  | InvalidResponse
  | IoError (msg : String)
  | Utf8Error (msg : String)
  | XmlError (msg : String)
deriving Repr, DecidableEq

instance {ε α : Type} [DecidableEq ε] [DecidableEq α] :
    DecidableEq (Except ε α) := fun x y =>
  match x, y with
  | .ok a, .ok b =>
    if h : a = b then .isTrue (by rw [h]) else .isFalse (by simp [h])
  | .error a, .error b =>
    if h : a = b then .isTrue (by rw [h]) else .isFalse (by simp [h])
  | .ok _, .error _ => .isFalse (by simp)
  | .error _, .ok _ => .isFalse (by simp)

/-- The numeric value of an ASCII decimal digit, `none` otherwise. -/
def digitVal (c : Char) : Option Nat :=
  if '0' ≤ c ∧ c ≤ '9' then some (c.toNat - 48) else none

/-- Accumulate decimal digits left to right; `none` on any non-digit. -/
def parseDigits : List Char → Nat → Option Nat
  | [], acc => some acc
  | c :: rest, acc =>
    match digitVal c with
    | some d => parseDigits rest (acc * 10 + d)
    | none => none

/-- Model of Rust's `str::parse` for an unsigned integer type with maximum
value `maxVal` (so `maxVal = 65535` for `u16`, `4294967295` for `u32`):
an optional leading `+`, then one or more decimal digits, rejecting the empty
string and values above `maxVal` (overflow). -/
def rustParseUnsigned (s : String) (maxVal : Nat) : Option Nat :=
  let cs :=
    match s.toList with
    | '+' :: rest => rest
    | cs => cs
  match cs with
  | [] => none
  | _ :: _ =>
    match parseDigits cs 0 with
    | some n => if n ≤ maxVal then some n else none
    | none => none

/-- Rust `"...".parse::<u16>()`. -/
def rustParseU16 (s : String) : Option Nat :=
  rustParseUnsigned s 65535

/-- Rust `"...".parse::<u32>()`. -/
def rustParseU32 (s : String) : Option Nat :=
  rustParseUnsigned s 4294967295

/-- An XML element as exposed by the `xmltree` crate: a tag name, optional
character data, and a list of child elements.  (Attributes and namespaces play
no role in the code under verification.) -/
inductive Element where
  | mk (name : String) (text : Option String) (children : List Element)

/-- Tag name of an element. -/
def Element.name : Element → String
  | .mk n _ _ => n

/-- Character data of an element. -/
def Element.text : Element → Option String
  | .mk _ t _ => t

/-- Child elements of an element. -/
def Element.children : Element → List Element
  | .mk _ _ c => c

/-- Model of `xmltree`'s `Element::get_child(name)`: the first child whose tag
name matches. -/
def Element.getChild (e : Element) (n : String) : Option Element :=
  e.children.find? (fun c => c.name == n)

/-- Model of `xmltree`'s `Element::take_child(name)`.  The source uses the
removed child only as a value, so the residual mutation of the parent is
irrelevant here and the found child itself is returned. -/
def Element.takeChild (e : Element) (n : String) : Option Element :=
  e.getChild n

/-- The success payload of `parse_response` in `src/common/parsing.rs`: the raw
response text paired with the extracted XML success element
(`RequestReponse` in the source). -/
structure RequestReponse where
  text : String
  xml : Element

/-- Shortened alias mirroring `RequestResult` in `src/common/parsing.rs`. -/
def RequestResult := Except RequestError RequestReponse

/-- Model of `parse_response(text, ok)` from `src/common/parsing.rs`
(lines 85-119).  The `xmltree::Element::parse` call on the raw text is an
external XML parser; its outcome is passed in as `parsed` (`none` when the
text is not valid XML). -/
def parse_response (parsed : Option Element) (text : String) (ok : String) :
    Except RequestError RequestReponse :=
  match parsed with
  | none => .error (.InvalidResponse text)
  | some xml =>
    match xml.getChild "Body" with
    | none => .error (.InvalidResponse text)
    | some body =>
      match body.takeChild ok with
      | some okEl => .ok ⟨text, okEl⟩
      | none =>
        match ((body.getChild "Fault").bind
            (fun e => e.getChild "detail")).bind
            (fun e => e.getChild "UPnPError") with
        | none => .error (.InvalidResponse text)
        | some upnpError =>
          match upnpError.getChild "errorCode",
              upnpError.getChild "errorDescription" with
          | some e, some d =>
            match e.text, d.text with
            | some et, some dt =>
              match rustParseU16 et with
              | some en => .error (.ErrorCode en dt)
              | none => .error (.InvalidResponse text)
            | _, _ => .error (.InvalidResponse text)
          | _, _ => .error (.InvalidResponse text)

theorem Element.sizeOf_children_lt (e : Element) :
    sizeOf e.children < sizeOf e := by
  cases e with
  | mk n t c => simp [Element.children]

theorem Element.sizeOf_getChild_lt {e c : Element} {n : String}
    (h : e.getChild n = some c) : sizeOf c < sizeOf e := by
  have hmem : c ∈ e.children := List.mem_of_find?_eq_some h
  exact Nat.lt_trans (List.sizeOf_lt_of_mem hmem) e.sizeOf_children_lt

/-- The WAN-service scan of a single `serviceList` element's children, inlined
in `parse_control_url_scan_device` (`src/common/parsing.rs` lines 49-64): the
first `service` child whose `serviceType` text is the WAN PPP or WAN IP
connection service type and which has a `controlURL` child with text yields
that text. -/
def findWanServiceUrl : List Element → Option String
  | [] => none
  | service :: rest =>
    if service.name = "service" then
      match service.getChild "serviceType" with
      | some serviceType =>
        if serviceType.text = some "urn:schemas-upnp-org:service:WANPPPConnection:1"
            ∨ serviceType.text = some "urn:schemas-upnp-org:service:WANIPConnection:1" then
          match service.getChild "controlURL" with
          | some controlUrl =>
            match controlUrl.text with
            | some text => some text
            | none => findWanServiceUrl rest
          | none => findWanServiceUrl rest
        else findWanServiceUrl rest
      | none => findWanServiceUrl rest
    else findWanServiceUrl rest

mutual

/-- Model of `parse_control_url_scan_device` from `src/common/parsing.rs`
(lines 47-76).  `none` stands for `Err(SearchError::InvalidResponse)`.
Note the `?` on `get_child("serviceList")` and `get_child("deviceList")` in
the source: a device node lacking either child makes this function return the
error for that node at that point. -/
def parse_control_url_scan_device (device : Element) : Option String :=
  match device.getChild "serviceList" with
  | none => none
  | some serviceList =>
    match findWanServiceUrl serviceList.children with
    | some url => some url
    | none =>
      match hd : device.getChild "deviceList" with
      | none => none
      | some deviceList => scanSubDevices deviceList.children
termination_by sizeOf device
decreasing_by
  simp_wf
  calc sizeOf deviceList.children < sizeOf deviceList :=
      deviceList.sizeOf_children_lt
    _ < sizeOf device := Element.sizeOf_getChild_lt hd

/-- The loop over `device_list.children` in `parse_control_url_scan_device`
(`src/common/parsing.rs` lines 67-73): recursively scan each child named
`device`, returning the first success. -/
def scanSubDevices : List Element → Option String
  | [] => none
  | subDevice :: rest =>
    if subDevice.name = "device" then
      match parse_control_url_scan_device subDevice with
      | some url => some url
      | none => scanSubDevices rest
    else scanSubDevices rest
termination_by l => sizeOf l
decreasing_by
  all_goals simp_wf <;> omega

end

/-- Model of `parse_control_url` from `src/common/parsing.rs` (lines 33-45).
The `Element::parse(resp)` call on the HTTP body is external; its outcome is
passed in as `root` (`none` = XML parse failure, reported as `XmlError` via
the `From` conversion).  `Except` carries the `SearchError`. -/
def parse_control_url (root : Option Element) : Except SearchError String :=
  match root with
  | none => .error (.XmlError "")
  | some root =>
    match root.getChild "device" with
    | none => .error .InvalidResponse
    | some device =>
      match parse_control_url_scan_device device with
      | some controlUrl => .ok controlUrl
      | none => .error .InvalidResponse

/-- A WAN IP connection `service` element with control URL `/ctl/IPConn`. -/
def wanIpService : Element :=
  .mk "service" none
    [.mk "serviceType" (some "urn:schemas-upnp-org:service:WANIPConnection:1") [],
     .mk "controlURL" (some "/ctl/IPConn") []]

/-- A nested device that exposes `wanIpService` through a `serviceList`. -/
def nestedWanDevice : Element :=
  .mk "device" none [.mk "serviceList" none [wanIpService]]

/-- A device with no `serviceList` child whose `deviceList` contains
`nestedWanDevice`. -/
def noServiceListDevice : Element :=
  .mk "device" none [.mk "deviceList" none [nestedWanDevice]]

/-- A device-description root whose `device` is `noServiceListDevice`. -/
def noServiceListRoot : Element :=
  .mk "root" none [noServiceListDevice]

/-- Error type of `parse_get_generic_port_mapping_entry`.  The enum
declaration itself lives in a revision of `errors.rs` outside the supplied
sources; only the variant the supplied code constructs
(`GetGenericPortMappingEntryError::RequestError`) is relevant here and is
modelled. -/
inductive GetGenericPortMappingEntryError where
  | RequestError (e : RequestError)
deriving Repr, DecidableEq

/-- One port mapping entry as returned by GetGenericPortMappingEntry, from
`PortMappingEntry` in `src/common/parsing.rs` (lines 207-226). -/
structure PortMappingEntry where
  remote_host : String
  external_port : Nat
  protocol : PortMappingProtocol
  internal_port : Nat
  internal_client : String
  enabled : Bool
  port_mapping_description : String
  lease_duration : Nat
deriving Repr, DecidableEq

/-- The `extract_field` closure of `parse_get_generic_port_mapping_entry`:
look up a direct child, reporting `"<field> is missing"` when absent. -/
def extract_field (xml : Element) (field : String) :
    Except GetGenericPortMappingEntryError Element :=
  match xml.getChild field with
  | some el => .ok el
  | none => .error (.RequestError (.InvalidResponse (field ++ " is missing")))

/-- The `make_err` closure of `parse_get_generic_port_mapping_entry`. -/
def make_err (msg : String) : GetGenericPortMappingEntryError :=
  .RequestError (.InvalidResponse msg)

/-- Rust's `Option::ok_or_else` specialised to the decoder's error type. -/
def okOrElse (o : Option α) (e : GetGenericPortMappingEntryError) :
    Except GetGenericPortMappingEntryError α :=
  match o with
  | some a => .ok a
  | none => .error e

/-- Model of `parse_get_generic_port_mapping_entry` from
`src/common/parsing.rs` (lines 228-250). -/
def parse_get_generic_port_mapping_entry
    (result : Except RequestError RequestReponse) :
    Except GetGenericPortMappingEntryError PortMappingEntry := do
  let response ← result.mapError GetGenericPortMappingEntryError.RequestError
  let xml := response.xml
  let remoteHostEl ← extract_field xml "NewRemoteHost"
  let remote_host := remoteHostEl.text.getD ""
  let externalPortEl ← extract_field xml "NewExternalPort"
  let external_port ← okOrElse (externalPortEl.text.bind rustParseU16)
    (make_err "Field NewExternalPort is invalid")
  let protocolEl ← extract_field xml "NewProtocol"
  let protocol ←
    match protocolEl.text with
    | some "UDP" => pure PortMappingProtocol.UDP
    | some "TCP" => pure PortMappingProtocol.TCP
    | _ => .error (.RequestError (.InvalidResponse "Field NewProtocol is invalid"))
  let internalPortEl ← extract_field xml "NewInternalPort"
  let internal_port ← okOrElse (internalPortEl.text.bind rustParseU16)
    (make_err "Field NewInternalPort is invalid")
  let internalClientEl ← extract_field xml "NewInternalClient"
  let internal_client ← okOrElse internalClientEl.text
    (make_err "Field NewInternalClient is empty")
  let enabledEl ← extract_field xml "NewEnabled"
  let enabledNum ← okOrElse (enabledEl.text.bind rustParseU16)
    (make_err "Field Enabled is invalid")
  let enabled ←
    match enabledNum with
    | 0 => pure false
    | 1 => pure true
    | _ => .error (.RequestError (.InvalidResponse "Field NewEnabled is invalid"))
  let descEl ← extract_field xml "NewPortMappingDescription"
  let port_mapping_description := descEl.text.getD ""
  let leaseEl ← extract_field xml "NewLeaseDuration"
  let lease_duration ← okOrElse (leaseEl.text.bind rustParseU32)
    (make_err "Field NewLeaseDuration is invalid")
  return { remote_host, external_port, protocol, internal_port,
           internal_client, enabled, port_mapping_description, lease_duration }

/-- A complete, otherwise-valid `GetGenericPortMappingEntryResponse` element
whose `NewProtocol` text is `protoText` and whose `NewEnabled` text is
`enabledText`. -/
def entryXml (protoText : Option String) (enabledText : Option String) :
    Element :=
  .mk "GetGenericPortMappingEntryResponse" none
    [.mk "NewRemoteHost" none [],
     .mk "NewExternalPort" (some "55555") [],
     .mk "NewProtocol" protoText [],
     .mk "NewInternalPort" (some "8080") [],
     .mk "NewInternalClient" (some "192.168.0.10") [],
     .mk "NewEnabled" enabledText [],
     .mk "NewPortMappingDescription" (some "test") [],
     .mk "NewLeaseDuration" (some "3600") []]

/-- The entry `entryXml` decodes to when every field is valid. -/
def entryValue (protocol : PortMappingProtocol) (enabled : Bool) :
    PortMappingEntry :=
  { remote_host := "", external_port := 55555, protocol := protocol,
    internal_port := 8080, internal_client := "192.168.0.10",
    enabled := enabled, port_mapping_description := "test",
    lease_duration := 3600 }

/-- `entryXml` with the `NewInternalClient` element removed. -/
def entryXmlNoClient : Element :=
  .mk "GetGenericPortMappingEntryResponse" none
    [.mk "NewRemoteHost" none [],
     .mk "NewExternalPort" (some "55555") [],
     .mk "NewProtocol" (some "TCP") [],
     .mk "NewInternalPort" (some "8080") [],
     .mk "NewEnabled" (some "1") [],
     .mk "NewPortMappingDescription" (some "test") [],
     .mk "NewLeaseDuration" (some "3600") []]

/-- An IPv4 address, as `std::net::Ipv4Addr`. -/
structure Ipv4Addr where
  a : Nat
  b : Nat
  c : Nat
  d : Nat
deriving Repr, DecidableEq

/-- An IPv4 socket address, as `std::net::SocketAddrV4`. -/
structure SocketAddrV4 where
  ip : Ipv4Addr
  port : Nat
deriving Repr, DecidableEq

/-- One octet of a textual IPv4 address, following Rust's
`Ipv4Addr::from_str`: decimal digits only, no leading zeros, value at most
255. -/
def parseOctet (cs : List Char) : Option Nat :=
  match cs with
  | [] => none
  | c :: rest =>
    if c = '0' ∧ rest ≠ [] then none
    else
      match parseDigits (c :: rest) 0 with
      | some n => if n ≤ 255 then some n else none
      | none => none

/-- Split a character list on a separator character; like Rust's
`str::split(sep)`, the result always has one more piece than there are
separators. -/
def splitOnChar (sep : Char) : List Char → List (List Char)
  | [] => [[]]
  | c :: rest =>
    let r := splitOnChar sep rest
    if c = sep then [] :: r
    else
      match r with
      | h :: t => (c :: h) :: t
      | [] => [[c]]

/-- Rust's `"a.b.c.d".parse::<Ipv4Addr>()`. -/
def ipv4Parse (cs : List Char) : Option Ipv4Addr :=
  match splitOnChar '.' cs with
  | [a, b, c, d] =>
    match parseOctet a, parseOctet b, parseOctet c, parseOctet d with
    | some a, some b, some c, some d => some ⟨a, b, c, d⟩
    | _, _, _, _ => none
  | _ => none

/-- Whitespace as trimmed by Rust's `str::trim` (restricted to the ASCII
whitespace occurring in SSDP datagrams). -/
def isRustWhitespace (c : Char) : Bool :=
  c = ' ' ∨ c = '\t' ∨ c = '\n' ∨ c = '\r'

/-- Rust `str::trim` at the character level. -/
def trimChars (cs : List Char) : List Char :=
  ((cs.dropWhile isRustWhitespace).reverse.dropWhile isRustWhitespace).reverse

/-- Strip one trailing carriage return, as Rust's `str::lines` does. -/
def stripCR (l : List Char) : List Char :=
  match l.getLast? with
  | some '\r' => l.dropLast
  | _ => l

/-- Rust `str::lines`: split on `\n`, drop the final empty piece produced by a
trailing newline, and strip one trailing `\r` from each line. -/
def rustLines (s : String) : List (List Char) :=
  let parts := splitOnChar '\n' s.toList
  let parts :=
    match parts.getLast? with
    | some [] => parts.dropLast
    | _ => parts
  parts.map stripCR

/-- Rust `char::to_ascii_lowercase`. -/
def asciiLowercaseChar (c : Char) : Char :=
  if 'A' ≤ c ∧ c ≤ 'Z' then Char.ofNat (c.toNat + 32) else c

/-- Does `l` start with the pattern `pat`? (Rust `str::starts_with`.) -/
def hasPrefixChars : List Char → List Char → Bool
  | _, [] => true
  | [], _ :: _ => false
  | c :: cs, p :: ps => c = p ∧ hasPrefixChars cs ps

/-- The characters after the first `:`; `none` when there is no colon.  This
models `line.find(":")` followed by slicing at `colon + 1` (the slice index is
a byte index in Rust; slicing immediately after a one-byte `:` coincides with
slicing the character list). -/
def afterFirstColon : List Char → Option (List Char)
  | [] => none
  | c :: rest => if c = ':' then some rest else afterFirstColon rest

/-- Parse result of the rust-url `Url` type, restricted to the fields the
repository reads: the host text, the explicit port, and the path. -/
structure Url where
  host : Option (List Char)
  port : Option Nat
  path : String
deriving Repr, DecidableEq

/-- Split a character list at the first `/`, keeping the slash with the
second component. -/
def spanUntilSlash : List Char → List Char × List Char
  | [] => ([], [])
  | c :: rest =>
    if c = '/' then ([], c :: rest)
    else
      let (a, b) := spanUntilSlash rest
      (c :: a, b)

/-- Boundary model of `url::Url::parse` for the plain absolute http URLs the
SSDP `LOCATION` header carries (`http://host[:port][/path]`): the scheme must
be literally `http://`; the authority must be non-empty and is split at its
first colon into host and optional port; an explicit port must be a decimal
`u16`, and an empty port section after the colon means no explicit port; the
path is the remainder starting at the first slash, defaulting to `/` (query
and fragment syntax is not modelled).  `none` models `Url::parse` returning
`Err`. -/
def urlParse (cs : List Char) : Option Url :=
  match cs with
  | 'h' :: 't' :: 't' :: 'p' :: ':' :: '/' :: '/' :: rest =>
    let (authority, pathChars) := spanUntilSlash rest
    let host := authority.takeWhile (fun c => c ≠ ':')
    if host = [] then none
    else
      let path := if pathChars = [] then "/" else String.mk pathChars
      match afterFirstColon authority with
      | none => some ⟨some host, none, path⟩
      | some portChars =>
        if portChars = [] then some ⟨some host, none, path⟩
        else
          match parseDigits portChars 0 with
          | some n => if n ≤ 65535 then some ⟨some host, some n, path⟩ else none
          | none => none
  | _ => none

/-- rust-url's `Url::port_or_known_default`: the explicit port, or 80 for the
http scheme (the only scheme this model admits). -/
def Url.portOrKnownDefault (u : Url) : Option Nat :=
  match u.port with
  | some p => some p
  | none => some 80

/-- The body of the `for line in text.lines()` loop of `parse_search_result`
(`src/common/parsing.rs` lines 14-29), over the remaining lines. -/
def searchResultLines :
    List (List Char) → Except SearchError (SocketAddrV4 × String)
  | [] => .error .InvalidResponse
  | line :: rest =>
    let line := trimChars line
    if hasPrefixChars (line.map asciiLowercaseChar) "location:".toList then
      match afterFirstColon line with
      | some afterColon =>
        let urlText := trimChars afterColon
        match urlParse urlText with
        | none => .error .InvalidResponse
        | some url =>
          match url.host with
          | none => .error .InvalidResponse
          | some hostStr =>
            match ipv4Parse hostStr with
            | none => .error .InvalidResponse
            | some addr =>
              match url.portOrKnownDefault with
              | none => .error .InvalidResponse
              | some port => .ok (⟨addr, port⟩, url.path)
      | none => searchResultLines rest
    else searchResultLines rest

/-- Model of `parse_search_result` from `src/common/parsing.rs`
(lines 11-31). -/
def parse_search_result (text : String) :
    Except SearchError (SocketAddrV4 × String) :=
  searchResultLines (rustLines text)

/-- A SOAP action request issued by the port-mapping negotiator of
`src/async/gateway.rs`, identified by the action name and the parameters the
negotiation logic varies. -/
inductive Request where
  | addAnyPortMapping (protocol : PortMappingProtocol) (externalPort : Nat)
      (localAddr : SocketAddrV4) (leaseDuration : Nat) (description : String)
  | addPortMapping (protocol : PortMappingProtocol) (externalPort : Nat)
      (localAddr : SocketAddrV4) (leaseDuration : Nat) (description : String)
deriving Repr, DecidableEq

/-- The gateway as seen through `perform_request` plus response parsing: each
request deterministically yields either the parsed success payload (the
`NewReservedPort` value for `AddAnyPortMapping`; the payload is ignored for
`AddPortMapping`, whose parse closure returns unit) or a `RequestError`. -/
def GatewayOracle := Request → Except RequestError Nat

/-- Model of `Gateway::add_port_mapping` from `src/async/gateway.rs`
(lines 289-324): issue one `AddPortMapping` request; the result is paired with
the singleton trace of the request issued. -/
def add_port_mapping (oracle : GatewayOracle) (protocol : PortMappingProtocol)
    (externalPort : Nat) (localAddr : SocketAddrV4) (leaseDuration : Nat)
    (description : String) : Except RequestError Unit × List Request :=
  let req := Request.addPortMapping protocol externalPort localAddr
    leaseDuration description
  ((oracle req).map (fun _ => ()), [req])

/-- Model of `Gateway::add_same_port_mapping` from `src/async/gateway.rs`
(lines 264-287): one `AddPortMapping` request with the external port forced
equal to the internal port; success yields that port, and errors 606, 718 and
725 map to `ActionNotAuthorized`, `ExternalPortInUse` and
`OnlyPermanentLeasesSupported`, everything else being wrapped generically. -/
def add_same_port_mapping (oracle : GatewayOracle)
    (protocol : PortMappingProtocol) (localAddr : SocketAddrV4)
    (leaseDuration : Nat) (description : String) :
    Except AddAnyPortError Nat × List Request :=
  let (r, t) := add_port_mapping oracle protocol localAddr.port localAddr
    leaseDuration description
  match r with
  | .ok _ => (.ok localAddr.port, t)
  | .error (.ErrorCode 606 _) => (.error .ActionNotAuthorized, t)
  | .error (.ErrorCode 718 _) => (.error .ExternalPortInUse, t)
  | .error (.ErrorCode 725 _) => (.error .OnlyPermanentLeasesSupported, t)
  | .error e => (.error (.RequestError e), t)

/-- Model of `Gateway::add_random_port_mapping` from `src/async/gateway.rs`
(lines 226-262).  The port drawn from `rand::thread_rng` is passed in as
`externalPort`.  Success yields the drawn port; error 724 triggers the
same-port fallback, whose outcome is returned directly; errors 605, 606, 718
and 725 map to `DescriptionTooLong`, `ActionNotAuthorized`,
`NoPortsAvailable` and `OnlyPermanentLeasesSupported`; anything else is
wrapped generically. -/
def add_random_port_mapping (oracle : GatewayOracle)
    (protocol : PortMappingProtocol) (externalPort : Nat)
    (localAddr : SocketAddrV4) (leaseDuration : Nat) (description : String) :
    Except AddAnyPortError Nat × List Request :=
  let (r, t) := add_port_mapping oracle protocol externalPort localAddr
    leaseDuration description
  match r with
  | .ok _ => (.ok externalPort, t)
  | .error (.ErrorCode 724 _) =>
    let (r2, t2) := add_same_port_mapping oracle protocol localAddr
      leaseDuration description
    (r2, t ++ t2)
  | .error e =>
    (.error (match e with
      | .ErrorCode 605 _ => .DescriptionTooLong
      | .ErrorCode 606 _ => .ActionNotAuthorized
      | .ErrorCode 718 _ => .NoPortsAvailable
      | .ErrorCode 725 _ => .OnlyPermanentLeasesSupported
      | e => .RequestError e), t)

/-- The retry predicate passed to `RetryIf::spawn` in
`Gateway::retry_add_random_port_mapping` (`src/async/gateway.rs`
lines 215-218): retry exactly on `NoPortsAvailable`. -/
def retryCondition (err : AddAnyPortError) : Bool :=
  match err with
  | .NoPortsAvailable => true
  | _ => false

/-- Boundary model of `tokio_retry`'s `RetryIf::spawn` with a strategy
iterator of `remaining` items (the source uses
`FixedInterval::from_millis(0).take(20)`, i.e. `remaining = 20`): run the
action; on an error satisfying the condition, consume one strategy item and
retry, or return the error when the strategy is exhausted.  `i` numbers the
attempts so that each one can consume a fresh random draw; the timer is
modelled as infallible (the `TimerError` branch of the source never fires).
The traces of all attempts are concatenated. -/
def retryIfRun (action : Nat → Except AddAnyPortError Nat × List Request)
    (cond : AddAnyPortError → Bool) :
    Nat → Nat → Except AddAnyPortError Nat × List Request
  | remaining, i =>
    let (r, t) := action i
    match r with
    | .ok v => (.ok v, t)
    | .error e =>
      if cond e then
        match remaining with
        | 0 => (.error e, t)
        | n + 1 =>
          let (r2, t2) := retryIfRun action cond n (i + 1)
          (r2, t ++ t2)
      else (.error e, t)

/-- Model of `Gateway::retry_add_random_port_mapping` from
`src/async/gateway.rs` (lines 199-224): `RetryIf` over
`add_random_port_mapping` with a 20-item `FixedInterval` strategy, retrying
exactly while the error is `NoPortsAvailable`.  `rng j` is the random port
drawn by attempt `j`. -/
def retry_add_random_port_mapping (oracle : GatewayOracle) (rng : Nat → Nat)
    (protocol : PortMappingProtocol) (localAddr : SocketAddrV4)
    (leaseDuration : Nat) (description : String) :
    Except AddAnyPortError Nat × List Request :=
  retryIfRun
    (fun j => add_random_port_mapping oracle protocol (rng j) localAddr
      leaseDuration description)
    retryCondition 20 0

/-- Model of `Gateway::add_any_port` from `src/async/gateway.rs`
(lines 122-197).  `rng 0` is the random port drawn for the initial
`AddAnyPortMapping` attempt and `rng (j + 1)` the port drawn by retry attempt
`j`; the oracle stands for `perform_request` plus the `NewReservedPort`
parse. -/
def add_any_port (oracle : GatewayOracle) (rng : Nat → Nat)
    (protocol : PortMappingProtocol) (localAddr : SocketAddrV4)
    (leaseDuration : Nat) (description : String) :
    Except AddAnyPortError Nat × List Request :=
  if localAddr.port = 0 then (.error .InternalPortZeroInvalid, [])
  else
    let req := Request.addAnyPortMapping protocol (rng 0) localAddr
      leaseDuration description
    match oracle req with
    | .ok port => (.ok port, [req])
    | .error (.ErrorCode 401 _) =>
      let (r, t) := retry_add_random_port_mapping oracle
        (fun j => rng (j + 1)) protocol localAddr leaseDuration description
      (r, req :: t)
    | .error e =>
      (.error (match e with
        | .ErrorCode 605 _ => .DescriptionTooLong
        | .ErrorCode 606 _ => .ActionNotAuthorized
        | .ErrorCode 728 _ => .NoPortsAvailable
        | e => .RequestError e), [req])

/-- Model of `Gateway::add_port` from `src/async/gateway.rs`
(lines 330-359). -/
def add_port (oracle : GatewayOracle) (protocol : PortMappingProtocol)
    (externalPort : Nat) (localAddr : SocketAddrV4) (leaseDuration : Nat)
    (description : String) : Except AddPortError Unit × List Request :=
  if externalPort = 0 then (.error .ExternalPortZeroInvalid, [])
  else if localAddr.port = 0 then (.error .InternalPortZeroInvalid, [])
  else
    let (r, t) := add_port_mapping oracle protocol externalPort localAddr
      leaseDuration description
    (r.mapError (fun err => match err with
      | .ErrorCode 605 _ => .DescriptionTooLong
      | .ErrorCode 606 _ => .ActionNotAuthorized
      | .ErrorCode 718 _ => .PortInUse
      | .ErrorCode 724 _ => .SamePortValuesRequired
      | .ErrorCode 725 _ => .OnlyPermanentLeasesSupported
      | e => .RequestError e), t)

/-- Number of `AddPortMapping` requests in a trace. -/
def countAddPortMapping (trace : List Request) : Nat :=
  trace.countP (fun r => match r with
    | .addPortMapping _ _ _ _ _ => true
    | _ => false)

/-- A gateway that rejects `AddAnyPortMapping` as an unknown method (code
401) and answers every `AddPortMapping` request with "conflict in mapping
entry" (code 718). -/
def alwaysConflictOracle : GatewayOracle := fun req =>
  match req with
  | .addAnyPortMapping _ _ _ _ _ => .error (.ErrorCode 401 "Invalid Action")
  | .addPortMapping _ _ _ _ _ => .error (.ErrorCode 718 "ConflictInMappingEntry")

/-- A gateway that rejects `AddAnyPortMapping` as an unknown method (code
401), demands equal internal and external ports for any other
`AddPortMapping` (code 724), and accepts an `AddPortMapping` whose external
port equals the request's internal port. -/
def samePortOracle : GatewayOracle := fun req =>
  match req with
  | .addAnyPortMapping _ _ _ _ _ => .error (.ErrorCode 401 "Invalid Action")
  | .addPortMapping _ ep la _ _ =>
    if ep = la.port then .ok 0
    else .error (.ErrorCode 724 "SamePortValuesRequired")

/-- A socket address as used by the concurrent search (`std::net::SocketAddr`):
either IPv4 or IPv6 (the IPv6 payload is abstracted to a number). -/
inductive SocketAddr where
  | V4 (a : SocketAddrV4)
  | V6 (a : Nat)
deriving Repr, DecidableEq

/-- The per-responder state of `SearchFuture` from `src/aio/search.rs`
(lines 41-45).  The in-flight control-URL fetch future of the `Connecting`
state is identified abstractly by a number; the environment supplies its poll
outcomes. -/
inductive SearchState where
  | Connecting (f : Nat)
  | Done (url : String)
  | Error
deriving Repr, DecidableEq

/-- The state of the concurrent search future, from `SearchFuture` in
`src/aio/search.rs`: the pending map from responder address to search state.
The `HashMap` is modelled as an association list; its iteration order (which
`HashMap` leaves unspecified) is the list order. -/
structure SearchFuture where
  pending : List (SocketAddr × SearchState)
deriving Repr, DecidableEq

/-- A resolved gateway, from `Gateway` in `src/aio/mod.rs`: by construction
its address is IPv4. -/
structure Gateway where
  addr : SocketAddrV4
  control_url : String
deriving Repr, DecidableEq

/-- Outcome of `self.socket.poll_recv_from` for one `poll` call: a datagram
(with its UTF-8 decoding outcome — `none` models invalid UTF-8), a
transport-level socket error, or nothing yet. -/
inductive RecvPoll where
  | readyOk (sender : SocketAddr) (decoded : Option String)
  | readyErr (msg : String)
  | pending
deriving Repr, DecidableEq

/-- Outcome of polling one in-flight control-URL fetch: still pending, or
ready with either a transport error or the fetched body (given as the outcome
of XML-parsing it, as in `parse_control_url`). -/
inductive FetchPoll where
  | pending
  | ready (r : Except SearchError (Option Element))

/-- Result of one `SearchFuture::poll` call. -/
inductive PollResult where
  | ready (r : Except SearchError Gateway)
  | pending
deriving Repr, DecidableEq

/-- Model of `SearchFuture::handle_broadcast_resp` from `src/aio/search.rs`
(lines 63-73): UTF-8-decode the datagram, parse it as an SSDP search result,
and wrap the IPv4 address as a `SocketAddr`.  The sender address is only
logged by the source. -/
def handle_broadcast_resp (sender : SocketAddr) (decoded : Option String) :
    Except SearchError (SocketAddr × String) :=
  match sender, decoded with
  | _, none => .error (.Utf8Error "invalid utf-8")
  | _, some text =>
    match parse_search_result text with
    | .error e => .error e
    | .ok (addr, path) => .ok (.V4 addr, path)

/-- Model of `SearchFuture::handle_control_resp` from `src/aio/search.rs`
(lines 98-108): parse the control URL out of the fetched body.  The address
is only logged by the source. -/
def handle_control_resp (addr : SocketAddr) (body : Option Element) :
    Except SearchError String :=
  match addr, body with
  | _, body => parse_control_url body

/-- Does the pending map contain the key `a`? (`HashMap::contains_key`.) -/
def containsKey : List (SocketAddr × SearchState) → SocketAddr → Bool
  | [], _ => false
  | (a, _) :: rest, b => a = b ∨ containsKey rest b

/-- The loop over `self.pending` in `SearchFuture::poll`
(`src/aio/search.rs` lines 142-174): poll each `Connecting` entry in order;
a fetch whose poll yields an error ends the whole search with that error (the
`?` on `c.as_mut().poll(cx)?`); a completed fetch whose body parses to a
control URL marks the entry `Done` and — only for an IPv4 responder —
resolves the search with that gateway, an IPv6 responder being merely logged;
a completed fetch whose body does not parse marks the entry failed.  Entries
after an early return keep their previous state. -/
def pollPendingList (fetchEnv : Nat → FetchPoll) :
    List (SocketAddr × SearchState) →
    PollResult × List (SocketAddr × SearchState)
  | [] => (.pending, [])
  | (addr, st) :: rest =>
    match st with
    | .Connecting f =>
      match fetchEnv f with
      | .pending =>
        let (r, rest') := pollPendingList fetchEnv rest
        (r, (addr, st) :: rest')
      | .ready (.error e) => (.ready (.error e), (addr, st) :: rest)
      | .ready (.ok body) =>
        match handle_control_resp addr body with
        | .ok control_url =>
          match addr with
          | .V4 a => (.ready (.ok ⟨a, control_url⟩),
                      (addr, .Done control_url) :: rest)
          | _ =>
            let (r, rest') := pollPendingList fetchEnv rest
            (r, (addr, .Done control_url) :: rest')
        | .error _ =>
          let (r, rest') := pollPendingList fetchEnv rest
          (r, (addr, .Error) :: rest')
    | _ =>
      let (r, rest') := pollPendingList fetchEnv rest
      (r, (addr, st) :: rest')

/-- Model of `SearchFuture::poll` from `src/aio/search.rs` (lines 114-177).
`recv` is this call's `poll_recv_from` outcome; `mkFetch` models
`request_control_url` (hyper URI construction can fail with a `SearchError`,
otherwise a new in-flight fetch future is produced); `fetchEnv` gives the
poll outcome of each in-flight fetch.  A datagram whose handling fails is
skipped; a new responder address is inserted as `Connecting` (the new entry
is polled in the same pass, like the freshly inserted future in the source);
a known address is dropped; a socket error returns immediately. -/
def poll (mkFetch : SocketAddr → String → Except SearchError Nat)
    (fetchEnv : Nat → FetchPoll) (s : SearchFuture) (recv : RecvPoll) :
    PollResult × SearchFuture :=
  match recv with
  | .readyOk sender decoded =>
    match handle_broadcast_resp sender decoded with
    | .ok (addr, path) =>
      if containsKey s.pending addr then
        let (r, p') := pollPendingList fetchEnv s.pending
        (r, ⟨p'⟩)
      else
        match mkFetch addr path with
        | .ok f =>
          let (r, p') := pollPendingList fetchEnv
            (s.pending ++ [(addr, .Connecting f)])
          (r, ⟨p'⟩)
        | .error e => (.ready (.error e), s)
    | .error _ =>
      let (r, p') := pollPendingList fetchEnv s.pending
      (r, ⟨p'⟩)
  | .readyErr msg => (.ready (.error (.IoError msg)), s)
  | .pending =>
    let (r, p') := pollPendingList fetchEnv s.pending
    (r, ⟨p'⟩)

/-- One step's worth of environment for the concurrent search: the socket
poll outcome, the fetch-future poll outcomes, and the URI-construction
behaviour. -/
structure PollEvent where
  recv : RecvPoll
  fetchEnv : Nat → FetchPoll
  mkFetch : SocketAddr → String → Except SearchError Nat

/-- The state after one `poll` call under event `e`. -/
def stepState (s : SearchFuture) (e : PollEvent) : SearchFuture :=
  (poll e.mkFetch e.fetchEnv s e.recv).2

/-- A control-URL fetch is started for `a` during a step exactly when `a` is
absent from the pending map before and present after (the source inserts the
`Connecting` entry at the same moment it dispatches the fetch). -/
def fetchStarted (s : SearchFuture) (e : PollEvent) (a : SocketAddr) : Bool :=
  !containsKey s.pending a && containsKey (stepState s e).pending a

/-- How many of the steps `evs` start a control-URL fetch for `a`. -/
def countStarts (s : SearchFuture) (evs : List PollEvent) (a : SocketAddr) :
    Nat :=
  match evs with
  | [] => 0
  | e :: rest =>
    (if fetchStarted s e a then 1 else 0) + countStarts (stepState s e) rest a

/-- A device-description root that resolves: its `device` child exposes the
WAN IP connection service with control URL `/ctl/IPConn`. -/
def wanRoot : Element :=
  .mk "root" none [nestedWanDevice]

/-! ### Theorems -/

theorem rustParseUnsigned_le {s : String} {m n : Nat}
    (h : rustParseUnsigned s m = some n) : n ≤ m := by
  unfold rustParseUnsigned at h
  rcases hcs : (match s.toList with
    | '+' :: rest => rest
    | cs => cs) with _ | ⟨c, cs⟩ <;> simp only [hcs] at h
  · exact absurd h (by simp)
  · rcases hp : parseDigits (c :: cs) 0 with _ | v <;> simp only [hp] at h
    · exact absurd h (by simp)
    · split at h
      · cases h; omega
      · exact absurd h (by simp)

theorem rustParseU16_lt {s : String} {n : Nat}
    (h : rustParseU16 s = some n) : n < 65536 :=
  Nat.lt_succ_of_le (rustParseUnsigned_le h)

/-- C2 (counterexample): the claim asserts that a device node with no
`serviceList` child but with a `deviceList` containing a matching nested WAN
connection service still resolves to that nested service's `controlURL`.  On
the concrete tree `noServiceListRoot` the nested device does expose the WAN IP
connection service with control URL `/ctl/IPConn`, yet `parse_control_url`
reports the no-matching-service error instead of resolving it. -/
theorem c2_counterexample :
    noServiceListDevice.getChild "serviceList" = none ∧
    (∃ dl, noServiceListDevice.getChild "deviceList" = some dl ∧
      dl.children = [nestedWanDevice]) ∧
    parse_control_url_scan_device nestedWanDevice = some "/ctl/IPConn" ∧
    parse_control_url (some noServiceListRoot) = .error .InvalidResponse := by
  refine ⟨by simp [noServiceListDevice, Element.getChild, Element.children,
      Element.name, List.find?], ?_, ?_, ?_⟩
  · exact ⟨.mk "deviceList" none [nestedWanDevice],
      by simp [noServiceListDevice, Element.getChild, Element.children,
        Element.name, List.find?],
      by simp [Element.children]⟩
  · simp [parse_control_url_scan_device, nestedWanDevice, wanIpService,
      Element.getChild, Element.children, Element.name, Element.text,
      List.find?, findWanServiceUrl]
  · simp [parse_control_url, noServiceListRoot, noServiceListDevice,
      parse_control_url_scan_device, Element.getChild, Element.children,
      Element.name, List.find?]

/-- C2 (amended): a device node with no `serviceList` child is not tolerated —
the resolver abandons that node immediately with the no-matching-service
error and never scans its `deviceList`, so a matching nested service below it
is unreachable; the abandonment is local, however: the parent's sub-device
loop absorbs the failure and continues with the remaining sibling devices. -/
theorem c2_missing_service_list_is_dead_end :
    (∀ device : Element, device.getChild "serviceList" = none →
      parse_control_url_scan_device device = none) ∧
    (∀ (sub : Element) (rest : List Element), sub.name = "device" →
      parse_control_url_scan_device sub = none →
      scanSubDevices (sub :: rest) = scanSubDevices rest) := by
  constructor
  · intro device h
    rw [parse_control_url_scan_device.eq_def]
    simp [h]
  · intro sub rest hname hscan
    conv_lhs => rw [scanSubDevices.eq_def]
    simp only [hname, hscan, ite_self]

/-- C2 (witness for the amended theorem): on the concrete device with no
`serviceList`, scanning yields the error, and prepending a failing sub-device
to a sibling list leaves the scan of the siblings unchanged. -/
theorem c2_witness :
    parse_control_url_scan_device noServiceListDevice = none ∧
    scanSubDevices [noServiceListDevice, nestedWanDevice] =
      scanSubDevices [nestedWanDevice] := by
  have h1 := c2_missing_service_list_is_dead_end.1 noServiceListDevice
    (by simp [noServiceListDevice, Element.getChild, Element.children,
      Element.name, List.find?])
  have h2 := c2_missing_service_list_is_dead_end.2 noServiceListDevice
    [nestedWanDevice] (by simp [noServiceListDevice, Element.name]) h1
  exact ⟨h1, h2⟩

/-- C4: the response envelope parser is total and its result is exactly one of
success subtree (carrying the original text), error-code with a code that fits
in an unsigned 16-bit integer, or invalid-response carrying the original text;
in particular an XML parse failure, a document without a `Body` element, and a
`Body` whose `Fault` lacks a well-formed `UPnPError` fragment each yield
invalid-response with the original text. -/
theorem c4_parse_response_trichotomy :
    (∀ (parsed : Option Element) (text ok : String),
      (∃ r : RequestReponse, parse_response parsed text ok = .ok r ∧
        r.text = text) ∨
      (∃ c d, parse_response parsed text ok = .error (.ErrorCode c d) ∧
        c < 65536) ∨
      parse_response parsed text ok = .error (.InvalidResponse text)) ∧
    (∀ text ok, parse_response none text ok = .error (.InvalidResponse text)) ∧
    (∀ (xml : Element) (text ok : String), xml.getChild "Body" = none →
      parse_response (some xml) text ok = .error (.InvalidResponse text)) ∧
    (∀ (xml body : Element) (text ok : String),
      xml.getChild "Body" = some body → body.takeChild ok = none →
      ((body.getChild "Fault").bind (fun e => e.getChild "detail")).bind
        (fun e => e.getChild "UPnPError") = none →
      parse_response (some xml) text ok = .error (.InvalidResponse text)) := by
  refine ⟨?_, ?_, ?_, ?_⟩
  · intro parsed text ok
    unfold parse_response
    repeat' split
    any_goals (right; right; rfl)
    · exact .inl ⟨_, rfl, rfl⟩
    · rename_i et _ en heq
      exact .inr (.inl ⟨en, _, rfl, rustParseU16_lt heq⟩)
  · intro text ok
    rfl
  · intro xml text ok h
    unfold parse_response
    simp [h]
  · intro xml body text ok h1 h2 h3
    unfold parse_response
    simp [h1, h2, h3]

/-- C4 (witness): concrete instances — a document whose `Body` holds the
expected success element returns it with the original text; an XML parse
failure, a `Body`-less document, and a `Fault` without a `UPnPError` fragment
all return invalid-response carrying the original text. -/
theorem c4_witness :
    parse_response none "raw" "FooResponse" = .error (.InvalidResponse "raw") ∧
    parse_response (some (.mk "Envelope" none [])) "raw" "FooResponse" =
      .error (.InvalidResponse "raw") ∧
    parse_response
      (some (.mk "Envelope" none
        [.mk "Body" none [.mk "Fault" none []]])) "raw" "FooResponse" =
      .error (.InvalidResponse "raw") := by
  refine ⟨c4_parse_response_trichotomy.2.1 "raw" "FooResponse", ?_, ?_⟩
  · exact c4_parse_response_trichotomy.2.2.1 (.mk "Envelope" none []) "raw"
      "FooResponse" (by simp [Element.getChild, Element.children, List.find?])
  · exact c4_parse_response_trichotomy.2.2.2 (.mk "Envelope" none
        [.mk "Body" none [.mk "Fault" none []]])
      (.mk "Body" none [.mk "Fault" none []]) "raw" "FooResponse"
      (by simp [Element.getChild, Element.children, Element.name, List.find?])
      (by simp [Element.takeChild, Element.getChild, Element.children,
        Element.name, List.find?])
      (by simp [Element.getChild, Element.children, Element.name, List.find?])

/-- C8 (counterexample): the claim requires the enabled field to be exactly
the string `"0"` or `"1"`, but the decoder parses it with `u16::from_str` and
then compares the numeric value, so the text `"01"` — neither `"0"` nor
`"1"` — is accepted and decodes to an enabled entry rather than producing an
`InvalidResponse` error. -/
theorem c8_counterexample :
    parse_get_generic_port_mapping_entry
        (.ok ⟨"", entryXml (some "TCP") (some "01")⟩) =
      .ok (entryValue .TCP true) ∧
    "01" ≠ "0" ∧ "01" ≠ "1" :=
  ⟨rfl, by decide, by decide⟩

/-- C8 (amended): decoding a `GetGenericPortMappingEntry` response validates
and type-converts every field: the protocol string must be exactly `"TCP"` or
`"UDP"`; the enabled field must parse as an unsigned 16-bit integer whose
value is 0 or 1 (so texts such as `"01"` or `"+1"` are also accepted); a
missing field is a distinct error naming that field, and a malformed field is
a distinct `InvalidResponse` error (the unparsable-enabled message says
`Enabled` rather than `NewEnabled`). -/
theorem c8_entry_field_validation :
    (∀ s, rustParseU16 s = none →
      parse_get_generic_port_mapping_entry
          (.ok ⟨"", entryXml (some "TCP") (some s)⟩) =
        .error (.RequestError (.InvalidResponse "Field Enabled is invalid"))) ∧
    (∀ s, rustParseU16 s = some 0 →
      parse_get_generic_port_mapping_entry
          (.ok ⟨"", entryXml (some "TCP") (some s)⟩) =
        .ok (entryValue .TCP false)) ∧
    (∀ s, rustParseU16 s = some 1 →
      parse_get_generic_port_mapping_entry
          (.ok ⟨"", entryXml (some "UDP") (some s)⟩) =
        .ok (entryValue .UDP true)) ∧
    (∀ s n, rustParseU16 s = some n → 2 ≤ n →
      parse_get_generic_port_mapping_entry
          (.ok ⟨"", entryXml (some "TCP") (some s)⟩) =
        .error (.RequestError (.InvalidResponse "Field NewEnabled is invalid"))) ∧
    (∀ t s, t ≠ "UDP" → t ≠ "TCP" →
      parse_get_generic_port_mapping_entry
          (.ok ⟨"", entryXml (some t) (some s)⟩) =
        .error (.RequestError (.InvalidResponse "Field NewProtocol is invalid"))) ∧
    parse_get_generic_port_mapping_entry (.ok ⟨"", entryXmlNoClient⟩) =
      .error (.RequestError (.InvalidResponse "NewInternalClient is missing")) := by
  have e1 : rustParseU16 "55555" = some 55555 := rfl
  have e2 : rustParseU16 "8080" = some 8080 := rfl
  have e3 : rustParseU32 "3600" = some 3600 := rfl
  refine ⟨?_, ?_, ?_, ?_, ?_, rfl⟩
  · intro s h
    simp [parse_get_generic_port_mapping_entry, entryXml, extract_field,
      okOrElse, make_err, Element.getChild, Element.children, Element.name,
      Element.text, List.find?, Except.mapError, bind, Except.bind, pure,
      Except.pure, h, e1, e2]
  · intro s h
    simp [parse_get_generic_port_mapping_entry, entryXml, entryValue,
      extract_field, okOrElse, make_err, Element.getChild, Element.children,
      Element.name, Element.text, List.find?, Except.mapError, bind,
      Except.bind, pure, Except.pure, h, e1, e2, e3]
  · intro s h
    simp [parse_get_generic_port_mapping_entry, entryXml, entryValue,
      extract_field, okOrElse, make_err, Element.getChild, Element.children,
      Element.name, Element.text, List.find?, Except.mapError, bind,
      Except.bind, pure, Except.pure, h, e1, e2, e3]
  · intro s n h h2
    simp [parse_get_generic_port_mapping_entry, entryXml, extract_field,
      okOrElse, make_err, Element.getChild, Element.children, Element.name,
      Element.text, List.find?, Except.mapError, bind, Except.bind, pure,
      Except.pure, h, e1, e2]
    match n, h2 with
    | n + 2, _ => rfl
  · intro t s ht1 ht2
    simp [parse_get_generic_port_mapping_entry, entryXml, extract_field,
      okOrElse, make_err, Element.getChild, Element.children, Element.name,
      Element.text, List.find?, Except.mapError, bind, Except.bind, pure,
      Except.pure, e1, ht1, ht2]

/-- C8 (witness): the amended theorem evaluated at concrete field texts —
unparsable `"abc"`, the valid `"0"`, `"1"` and the out-of-range `"2"` enabled
values, and a protocol string that is neither `"TCP"` nor `"UDP"`. -/
theorem c8_witness :
    parse_get_generic_port_mapping_entry
        (.ok ⟨"", entryXml (some "TCP") (some "abc")⟩) =
      .error (.RequestError (.InvalidResponse "Field Enabled is invalid")) ∧
    parse_get_generic_port_mapping_entry
        (.ok ⟨"", entryXml (some "TCP") (some "0")⟩) =
      .ok (entryValue .TCP false) ∧
    parse_get_generic_port_mapping_entry
        (.ok ⟨"", entryXml (some "UDP") (some "1")⟩) =
      .ok (entryValue .UDP true) ∧
    parse_get_generic_port_mapping_entry
        (.ok ⟨"", entryXml (some "TCP") (some "2")⟩) =
      .error (.RequestError (.InvalidResponse "Field NewEnabled is invalid")) ∧
    parse_get_generic_port_mapping_entry
        (.ok ⟨"", entryXml (some "tcp") (some "1")⟩) =
      .error (.RequestError (.InvalidResponse "Field NewProtocol is invalid")) :=
  ⟨c8_entry_field_validation.1 "abc" rfl,
   c8_entry_field_validation.2.1 "0" rfl,
   c8_entry_field_validation.2.2.1 "1" rfl,
   c8_entry_field_validation.2.2.2.1 "2" 2 rfl (by decide),
   c8_entry_field_validation.2.2.2.2.1 "tcp" "1" (by decide) (by decide)⟩

theorem retryIfRun_exhaust (action : Nat → Except AddAnyPortError Nat × List Request)
    (cond : AddAnyPortError → Bool) (e : AddAnyPortError) (he : cond e = true)
    (req : Nat → Request) :
    ∀ n i, (∀ j, j ≤ n → action (i + j) = (.error e, [req (i + j)])) →
    retryIfRun action cond n i =
      (.error e, (List.range (n + 1)).map (fun j => req (i + j))) := by
  intro n
  induction n with
  | zero =>
    intro i h
    have h0 := h 0 (Nat.le_refl 0)
    rw [Nat.add_zero] at h0
    rw [retryIfRun, h0]
    simp [he, List.range_succ]
  | succ n ih =>
    intro i h
    have h0 := h 0 (Nat.zero_le _)
    rw [Nat.add_zero] at h0
    have hrec := ih (i + 1) (fun j hj => by
      have := h (j + 1) (by omega)
      rwa [show i + (j + 1) = i + 1 + j by omega] at this)
    rw [retryIfRun, h0]
    simp only [he, if_true, hrec]
    rw [Prod.mk.injEq]
    refine ⟨rfl, ?_⟩
    conv_rhs => rw [List.range_succ_eq_map]
    simp only [List.map_cons, List.map_map, List.singleton_append, Nat.add_zero]
    congr 1
    apply List.map_congr_left
    intro j _
    simp only [Function.comp]
    congr 1
    omega

theorem retryIfRun_stop (action : Nat → Except AddAnyPortError Nat × List Request)
    (cond : AddAnyPortError → Bool) (e : AddAnyPortError) (he : cond e = true)
    (req : Nat → Request) :
    ∀ k n i, k ≤ n →
    (∀ j, j < k → action (i + j) = (.error e, [req (i + j)])) →
    (∀ e', (action (i + k)).1 = .error e' → cond e' = false) →
    retryIfRun action cond n i =
      ((action (i + k)).1,
        (List.range k).map (fun j => req (i + j)) ++ (action (i + k)).2) := by
  intro k
  induction k with
  | zero =>
    intro n i _ _ hstop
    rw [Nat.add_zero] at hstop ⊢
    rw [retryIfRun]
    rcases ha : action i with ⟨r, t⟩
    rcases r with e' | v
    · have hc := hstop e' (by rw [ha])
      simp [ha, hc]
    · simp [ha]
  | succ k ih =>
    intro n i hk hfail hstop
    have hidx : i + (k + 1) = i + 1 + k := by omega
    rw [hidx] at hstop ⊢
    match n, hk with
    | n + 1, hk =>
      have h0 := hfail 0 (by omega)
      rw [Nat.add_zero] at h0
      have hrec := ih n (i + 1) (by omega)
        (fun j hj => by
          have := hfail (j + 1) (by omega)
          rwa [show i + (j + 1) = i + 1 + j by omega] at this)
        hstop
      rw [retryIfRun, h0]
      simp only [he, if_true, hrec]
      rw [Prod.mk.injEq]
      refine ⟨rfl, ?_⟩
      have hmap : (List.range k).map (fun j => req (i + 1 + j)) =
          (List.range k).map ((fun j => req (i + j)) ∘ Nat.succ) := by
        apply List.map_congr_left
        intro j _
        simp only [Function.comp]
        congr 1
        omega
      conv_rhs => rw [List.range_succ_eq_map]
      simp only [List.map_cons, List.map_map, List.singleton_append, Nat.add_zero,
        List.cons_append, List.nil_append]
      rw [hmap]

/-- C9: parsing the `LOCATION` header of an SSDP response is
case-insensitive — the two inputs `location:http://0.0.0.0:0/x` and
`LOCATION:http://0.0.0.0:0/x` parse to the same (socket address, path) pair,
namely `0.0.0.0:0` with path `/x`. -/
theorem c9_location_case_insensitive :
    parse_search_result "location:http://0.0.0.0:0/x" =
      parse_search_result "LOCATION:http://0.0.0.0:0/x" ∧
    parse_search_result "location:http://0.0.0.0:0/x" =
      .ok (⟨⟨0, 0, 0, 0⟩, 0⟩, "/x") :=
  ⟨rfl, rfl⟩

/-- C1 (counterexample): against a gateway that rejects `AddAnyPortMapping`
with code 401 and answers every `AddPortMapping` with code 718,
`add_any_port` does terminate with `NoPortsAvailable`, but it issues 21
`AddPortMapping` requests — one initial attempt plus the 20 retries granted
by the `FixedInterval::from_millis(0).take(20)` strategy — not exactly 20 as
claimed. -/
theorem c1_counterexample :
    (add_any_port alwaysConflictOracle (fun j => 33000 + j) .TCP
      ⟨⟨192, 168, 0, 2⟩, 8080⟩ 0 "igd-test").1 = .error .NoPortsAvailable ∧
    countAddPortMapping (add_any_port alwaysConflictOracle (fun j => 33000 + j)
      .TCP ⟨⟨192, 168, 0, 2⟩, 8080⟩ 0 "igd-test").2 = 21 ∧
    ¬ countAddPortMapping (add_any_port alwaysConflictOracle
      (fun j => 33000 + j) .TCP ⟨⟨192, 168, 0, 2⟩, 8080⟩ 0 "igd-test").2 = 20 :=
  ⟨rfl, rfl, by decide⟩

/-- C1 (amended): for every gateway that answers every `AddPortMapping`
request with UPnP error code 718 (after `AddAnyPortMapping` fails with code
401), `add_any_port` terminates after exactly 21 `AddPortMapping` attempts —
the initial attempt plus the 20-retry budget of the `RetryIf` strategy — and
returns the `NoPortsAvailable` error; it never loops indefinitely. -/
theorem c1_retry_bound (oracle : GatewayOracle) (rng : Nat → Nat)
    (protocol : PortMappingProtocol) (localAddr : SocketAddrV4)
    (leaseDuration : Nat) (description : String)
    (hport : localAddr.port ≠ 0)
    (h401 : ∃ s, oracle (.addAnyPortMapping protocol (rng 0) localAddr
      leaseDuration description) = .error (.ErrorCode 401 s))
    (h718 : ∀ ep, ∃ s, oracle (.addPortMapping protocol ep localAddr
      leaseDuration description) = .error (.ErrorCode 718 s)) :
    (add_any_port oracle rng protocol localAddr leaseDuration description).1 =
      .error .NoPortsAvailable ∧
    countAddPortMapping
      (add_any_port oracle rng protocol localAddr leaseDuration
        description).2 = 21 := by
  obtain ⟨s0, h0⟩ := h401
  have haction : ∀ j, add_random_port_mapping oracle protocol (rng (j + 1))
      localAddr leaseDuration description =
      (.error .NoPortsAvailable,
       [Request.addPortMapping protocol (rng (j + 1)) localAddr leaseDuration
         description]) := by
    intro j
    obtain ⟨s, hs⟩ := h718 (rng (j + 1))
    simp only [add_random_port_mapping, add_port_mapping, hs]
    rfl
  have hretry := retryIfRun_exhaust
    (fun j => add_random_port_mapping oracle protocol (rng (j + 1)) localAddr
      leaseDuration description)
    retryCondition .NoPortsAvailable rfl
    (fun j => Request.addPortMapping protocol (rng (j + 1)) localAddr
      leaseDuration description)
    20 0
    (fun j hj => by simpa using haction j)
  unfold add_any_port retry_add_random_port_mapping
  simp only [hport, if_false, h0]
  rw [hretry]
  refine ⟨rfl, ?_⟩
  simp [countAddPortMapping, List.countP_cons, List.countP_map,
    Function.comp_def, List.countP_true]

/-- C1 (witness for the amended theorem): the amended bound evaluated against
the concrete always-conflicting gateway. -/
theorem c1_witness :
    (add_any_port alwaysConflictOracle (fun j => 40000 + j) .UDP
      ⟨⟨10, 0, 0, 2⟩, 9000⟩ 3600 "w").1 = .error .NoPortsAvailable ∧
    countAddPortMapping (add_any_port alwaysConflictOracle (fun j => 40000 + j)
      .UDP ⟨⟨10, 0, 0, 2⟩, 9000⟩ 3600 "w").2 = 21 :=
  c1_retry_bound alwaysConflictOracle (fun j => 40000 + j) .UDP
    ⟨⟨10, 0, 0, 2⟩, 9000⟩ 3600 "w" (by decide)
    ⟨"Invalid Action", rfl⟩ (fun ep => ⟨"ConflictInMappingEntry", rfl⟩)

theorem add_same_port_mapping_spec (oracle : GatewayOracle)
    (protocol : PortMappingProtocol) (localAddr : SocketAddrV4)
    (leaseDuration : Nat) (description : String) :
    (add_same_port_mapping oracle protocol localAddr leaseDuration
      description).2 =
      [.addPortMapping protocol localAddr.port localAddr leaseDuration
        description] ∧
    ∀ e', (add_same_port_mapping oracle protocol localAddr leaseDuration
      description).1 = .error e' → retryCondition e' = false := by
  unfold add_same_port_mapping add_port_mapping
  rcases h : oracle (.addPortMapping protocol localAddr.port localAddr
      leaseDuration description) with e | v
  · simp only [h]
    constructor
    · split <;> rfl
    · intro e' he'
      revert he'
      split <;> intro he' <;>
        first
        | (injection he' with he''; rw [← he'']; rfl)
        | simp at he'
  · simp only [h]
    exact ⟨rfl, by intro e' he'; cases he'⟩

theorem add_same_port_mapping_result (oracle : GatewayOracle)
    (protocol : PortMappingProtocol) (localAddr : SocketAddrV4)
    (leaseDuration : Nat) (description : String) :
    (∀ v, oracle (.addPortMapping protocol localAddr.port localAddr
        leaseDuration description) = .ok v →
      (add_same_port_mapping oracle protocol localAddr leaseDuration
        description).1 = .ok localAddr.port) ∧
    (∀ s, oracle (.addPortMapping protocol localAddr.port localAddr
        leaseDuration description) = .error (.ErrorCode 606 s) →
      (add_same_port_mapping oracle protocol localAddr leaseDuration
        description).1 = .error .ActionNotAuthorized) ∧
    (∀ s, oracle (.addPortMapping protocol localAddr.port localAddr
        leaseDuration description) = .error (.ErrorCode 718 s) →
      (add_same_port_mapping oracle protocol localAddr leaseDuration
        description).1 = .error .ExternalPortInUse) ∧
    (∀ s, oracle (.addPortMapping protocol localAddr.port localAddr
        leaseDuration description) = .error (.ErrorCode 725 s) →
      (add_same_port_mapping oracle protocol localAddr leaseDuration
        description).1 = .error .OnlyPermanentLeasesSupported) ∧
    (∀ e, oracle (.addPortMapping protocol localAddr.port localAddr
        leaseDuration description) = .error e →
      (∀ s, e ≠ .ErrorCode 606 s) → (∀ s, e ≠ .ErrorCode 718 s) →
      (∀ s, e ≠ .ErrorCode 725 s) →
      (add_same_port_mapping oracle protocol localAddr leaseDuration
        description).1 = .error (.RequestError e)) := by
  refine ⟨?_, ?_, ?_, ?_, ?_⟩
  · intro v h
    simp only [add_same_port_mapping, add_port_mapping, h]
    rfl
  · intro s h
    simp only [add_same_port_mapping, add_port_mapping, h]
    rfl
  · intro s h
    simp only [add_same_port_mapping, add_port_mapping, h]
    rfl
  · intro s h
    simp only [add_same_port_mapping, add_port_mapping, h]
    rfl
  · intro e h h606 h718 h725
    simp only [add_same_port_mapping, add_port_mapping, h, Except.map]

/-- C3: in every execution of `add_any_port` whose `AddPortMapping` attempt
`k` (after the 401 method fallback, with any retry budget remaining, `k ≤ 20`)
fails with UPnP code 724 (SamePortValuesRequired), exactly one follow-up
`AddPortMapping` request is issued, with the external port forced equal to
the internal port, and the whole call ends there — the trace is exactly the
`AddAnyPortMapping` attempt, the `k + 1` random-port attempts and that single
follow-up.  The follow-up's success yields the internal port as the final
result, its errors 606, 718 and 725 map to `ActionNotAuthorized`,
`ExternalPortInUse` and `OnlyPermanentLeasesSupported`, and any other error
is wrapped generically. -/
theorem c3_same_port_single_shot (oracle : GatewayOracle) (rng : Nat → Nat)
    (protocol : PortMappingProtocol) (localAddr : SocketAddrV4)
    (leaseDuration : Nat) (description : String) (k : Nat)
    (hport : localAddr.port ≠ 0) (hk : k ≤ 20)
    (h401 : ∃ s, oracle (.addAnyPortMapping protocol (rng 0) localAddr
      leaseDuration description) = .error (.ErrorCode 401 s))
    (h718 : ∀ j, j < k → ∃ s, oracle (.addPortMapping protocol (rng (j + 1))
      localAddr leaseDuration description) = .error (.ErrorCode 718 s))
    (h724 : ∃ s, oracle (.addPortMapping protocol (rng (k + 1)) localAddr
      leaseDuration description) = .error (.ErrorCode 724 s)) :
    (add_any_port oracle rng protocol localAddr leaseDuration description).2 =
      (Request.addAnyPortMapping protocol (rng 0) localAddr leaseDuration
        description ::
       (List.range (k + 1)).map (fun j => Request.addPortMapping protocol
         (rng (j + 1)) localAddr leaseDuration description)) ++
      [Request.addPortMapping protocol localAddr.port localAddr leaseDuration
        description] ∧
    (∀ v, oracle (.addPortMapping protocol localAddr.port localAddr
        leaseDuration description) = .ok v →
      (add_any_port oracle rng protocol localAddr leaseDuration
        description).1 = .ok localAddr.port) ∧
    (∀ s, oracle (.addPortMapping protocol localAddr.port localAddr
        leaseDuration description) = .error (.ErrorCode 606 s) →
      (add_any_port oracle rng protocol localAddr leaseDuration
        description).1 = .error .ActionNotAuthorized) ∧
    (∀ s, oracle (.addPortMapping protocol localAddr.port localAddr
        leaseDuration description) = .error (.ErrorCode 718 s) →
      (add_any_port oracle rng protocol localAddr leaseDuration
        description).1 = .error .ExternalPortInUse) ∧
    (∀ s, oracle (.addPortMapping protocol localAddr.port localAddr
        leaseDuration description) = .error (.ErrorCode 725 s) →
      (add_any_port oracle rng protocol localAddr leaseDuration
        description).1 = .error .OnlyPermanentLeasesSupported) ∧
    (∀ e, oracle (.addPortMapping protocol localAddr.port localAddr
        leaseDuration description) = .error e →
      (∀ s, e ≠ .ErrorCode 606 s) → (∀ s, e ≠ .ErrorCode 718 s) →
      (∀ s, e ≠ .ErrorCode 725 s) →
      (add_any_port oracle rng protocol localAddr leaseDuration
        description).1 = .error (.RequestError e)) := by
  obtain ⟨s0, h0⟩ := h401
  obtain ⟨s7, h7⟩ := h724
  have haction : ∀ j, j < k → add_random_port_mapping oracle protocol
      (rng (j + 1)) localAddr leaseDuration description =
      (.error .NoPortsAvailable,
       [Request.addPortMapping protocol (rng (j + 1)) localAddr leaseDuration
         description]) := by
    intro j hj
    obtain ⟨s, hs⟩ := h718 j hj
    simp only [add_random_port_mapping, add_port_mapping, hs]
    rfl
  have hspec := add_same_port_mapping_spec oracle protocol localAddr
    leaseDuration description
  have hactK : add_random_port_mapping oracle protocol (rng (k + 1)) localAddr
      leaseDuration description =
      ((add_same_port_mapping oracle protocol localAddr leaseDuration
        description).1,
       Request.addPortMapping protocol (rng (k + 1)) localAddr leaseDuration
         description ::
       (add_same_port_mapping oracle protocol localAddr leaseDuration
         description).2) := by
    simp only [add_random_port_mapping, add_port_mapping, h7]
    rfl
  have hretry := retryIfRun_stop
    (fun j => add_random_port_mapping oracle protocol (rng (j + 1)) localAddr
      leaseDuration description)
    retryCondition .NoPortsAvailable rfl
    (fun j => Request.addPortMapping protocol (rng (j + 1)) localAddr
      leaseDuration description)
    k 20 0 hk
    (fun j hj => by simpa using haction j hj)
    (fun e' he' => by
      rw [Nat.zero_add] at he'
      simp only [hactK] at he'
      exact hspec.2 e' he')
  have hpair : (add_any_port oracle rng protocol localAddr leaseDuration
        description).2 =
      (Request.addAnyPortMapping protocol (rng 0) localAddr leaseDuration
        description ::
       (List.range (k + 1)).map (fun j => Request.addPortMapping protocol
         (rng (j + 1)) localAddr leaseDuration description)) ++
      [Request.addPortMapping protocol localAddr.port localAddr leaseDuration
        description] ∧
      (add_any_port oracle rng protocol localAddr leaseDuration
        description).1 =
      (add_same_port_mapping oracle protocol localAddr leaseDuration
        description).1 := by
    unfold add_any_port retry_add_random_port_mapping
    simp only [hport, if_false, h0]
    rw [hretry]
    simp only [Nat.zero_add, hactK]
    refine ⟨?_, trivial⟩
    rw [hspec.1, List.range_succ]
    simp [List.append_assoc]
  have htable := add_same_port_mapping_result oracle protocol localAddr
    leaseDuration description
  refine ⟨hpair.1, ?_, ?_, ?_, ?_, ?_⟩
  · intro v h
    exact hpair.2.trans (htable.1 v h)
  · intro s h
    exact hpair.2.trans (htable.2.1 s h)
  · intro s h
    exact hpair.2.trans (htable.2.2.1 s h)
  · intro s h
    exact hpair.2.trans (htable.2.2.2.1 s h)
  · intro e h h606 h718x h725
    exact hpair.2.trans (htable.2.2.2.2 e h h606 h718x h725)

/-- C3 (witness): against the concrete same-port-demanding gateway, the first
random `AddPortMapping` attempt gets 724 and exactly one follow-up with
external port 8080 (the internal port) is issued, which succeeds: the trace is
the three requests and the result is `Ok 8080`. -/
theorem c3_witness :
    (add_any_port samePortOracle (fun j => 33000 + j) .TCP
      ⟨⟨192, 168, 0, 2⟩, 8080⟩ 0 "igd-test").2 =
      [.addAnyPortMapping .TCP 33000 ⟨⟨192, 168, 0, 2⟩, 8080⟩ 0 "igd-test",
       .addPortMapping .TCP 33001 ⟨⟨192, 168, 0, 2⟩, 8080⟩ 0 "igd-test",
       .addPortMapping .TCP 8080 ⟨⟨192, 168, 0, 2⟩, 8080⟩ 0 "igd-test"] ∧
    (add_any_port samePortOracle (fun j => 33000 + j) .TCP
      ⟨⟨192, 168, 0, 2⟩, 8080⟩ 0 "igd-test").1 = .ok 8080 := by
  have h := c3_same_port_single_shot samePortOracle (fun j => 33000 + j) .TCP
    ⟨⟨192, 168, 0, 2⟩, 8080⟩ 0 "igd-test" 0 (by decide) (by decide)
    ⟨"Invalid Action", rfl⟩ (fun j hj => absurd hj (by omega))
    ⟨"SamePortValuesRequired", rfl⟩
  refine ⟨?_, h.2.1 0 rfl⟩
  rw [h.1]
  rfl

/-- C7: `add_port` with external port 0 fails immediately with
`ExternalPortZeroInvalid`; `add_port` (with a non-zero external port) and
`add_any_port` with internal port 0 fail immediately with
`InternalPortZeroInvalid`; in all three cases the request trace is empty, so
the error is returned before any network request is sent. -/
theorem c7_boundary_rejection (oracle : GatewayOracle)
    (protocol : PortMappingProtocol) (leaseDuration : Nat)
    (description : String) :
    (∀ localAddr : SocketAddrV4,
      add_port oracle protocol 0 localAddr leaseDuration description =
        (.error .ExternalPortZeroInvalid, [])) ∧
    (∀ (externalPort : Nat) (ip : Ipv4Addr), externalPort ≠ 0 →
      add_port oracle protocol externalPort ⟨ip, 0⟩ leaseDuration description =
        (.error .InternalPortZeroInvalid, [])) ∧
    (∀ (rng : Nat → Nat) (ip : Ipv4Addr),
      add_any_port oracle rng protocol ⟨ip, 0⟩ leaseDuration description =
        (.error .InternalPortZeroInvalid, [])) := by
  refine ⟨?_, ?_, ?_⟩
  · intro la
    simp [add_port]
  · intro ep ip h
    simp [add_port, h]
  · intro rng ip
    simp [add_any_port]

/-- C7 (witness): the three boundary rejections evaluated at concrete
arguments. -/
theorem c7_witness :
    add_port alwaysConflictOracle .TCP 0 ⟨⟨192, 168, 0, 2⟩, 8080⟩ 0 "d" =
      (.error .ExternalPortZeroInvalid, []) ∧
    add_port alwaysConflictOracle .TCP 1234 ⟨⟨192, 168, 0, 2⟩, 0⟩ 0 "d" =
      (.error .InternalPortZeroInvalid, []) ∧
    add_any_port alwaysConflictOracle (fun j => 33000 + j) .TCP
      ⟨⟨192, 168, 0, 2⟩, 0⟩ 0 "d" = (.error .InternalPortZeroInvalid, []) :=
  ⟨(c7_boundary_rejection alwaysConflictOracle .TCP 0 "d").1
      ⟨⟨192, 168, 0, 2⟩, 8080⟩,
   (c7_boundary_rejection alwaysConflictOracle .TCP 0 "d").2.1 1234
      ⟨192, 168, 0, 2⟩ (by decide),
   (c7_boundary_rejection alwaysConflictOracle .TCP 0 "d").2.2
      (fun j => 33000 + j) ⟨192, 168, 0, 2⟩⟩

theorem containsKey_append (l1 l2 : List (SocketAddr × SearchState))
    (a : SocketAddr) :
    containsKey (l1 ++ l2) a = (containsKey l1 a || containsKey l2 a) := by
  induction l1 with
  | nil => simp [containsKey]
  | cons hd tl ih =>
    obtain ⟨b, st⟩ := hd
    simp [containsKey, ih, Bool.or_assoc]

theorem pollPendingList_containsKey (fetchEnv : Nat → FetchPoll)
    (l : List (SocketAddr × SearchState)) (a : SocketAddr) :
    containsKey (pollPendingList fetchEnv l).2 a = containsKey l a := by
  induction l with
  | nil => rfl
  | cons hd tl ih =>
    obtain ⟨addr, st⟩ := hd
    cases st with
    | Connecting f =>
      rw [pollPendingList]
      cases hfe : fetchEnv f with
      | pending => simp [containsKey, ih]
      | ready r =>
        cases r with
        | error e => simp [containsKey, ih]
        | ok body =>
          cases hh : handle_control_resp addr body with
          | ok url =>
            cases addr with
            | V4 a4 => simp [containsKey, ih, hh]
            | V6 x => simp [containsKey, ih, hh]
          | error e => simp [containsKey, ih, hh]
    | Done url =>
      rw [pollPendingList]
      · simp [containsKey, ih]
      · exact fun f h => SearchState.noConfusion h
    | Error =>
      rw [pollPendingList]
      · simp [containsKey, ih]
      · exact fun f h => SearchState.noConfusion h

theorem containsKey_stepState (s : SearchFuture) (e : PollEvent)
    (a : SocketAddr) (h : containsKey s.pending a = true) :
    containsKey (stepState s e).pending a = true := by
  obtain ⟨recv, fetchEnv, mkFetch⟩ := e
  unfold stepState poll
  cases recv with
  | readyOk sender decoded =>
    cases hb : handle_broadcast_resp sender decoded with
    | ok ap =>
      obtain ⟨addr, path⟩ := ap
      by_cases hc : containsKey s.pending addr = true
      · simp [hb, hc, pollPendingList_containsKey, h]
      · cases hm : mkFetch addr path with
        | ok f =>
          simp [hb, hc, hm, pollPendingList_containsKey, containsKey_append, h]
        | error err => simp [hb, hc, hm, h]
    | error err => simp [hb, pollPendingList_containsKey, h]
  | readyErr msg => simpa using h
  | pending => simp [pollPendingList_containsKey, h]

theorem countStarts_eq_zero_of_containsKey (evs : List PollEvent)
    (s : SearchFuture) (a : SocketAddr)
    (h : containsKey s.pending a = true) :
    countStarts s evs a = 0 := by
  induction evs generalizing s with
  | nil => rfl
  | cons e rest ih =>
    rw [countStarts]
    have hstep := containsKey_stepState s e a h
    have hns : fetchStarted s e a = false := by simp [fetchStarted, h]
    simp [hns, ih _ hstep]

theorem countStarts_le_one (evs : List PollEvent) (s : SearchFuture)
    (a : SocketAddr) : countStarts s evs a ≤ 1 := by
  induction evs generalizing s with
  | nil => simp [countStarts]
  | cons e rest ih =>
    rw [countStarts]
    by_cases hst : fetchStarted s e a = true
    · have hpost : containsKey (stepState s e).pending a = true := by
        simp [fetchStarted] at hst
        exact hst.2
      simp [hst, countStarts_eq_zero_of_containsKey rest _ _ hpost]
    · simp only [Bool.not_eq_true] at hst
      simp [hst]
      exact ih (stepState s e)

theorem pollPendingList_gateway_origin (fetchEnv : Nat → FetchPoll) :
    ∀ (l : List (SocketAddr × SearchState)) (g : Gateway),
      (pollPendingList fetchEnv l).1 = .ready (.ok g) →
      ∃ f body, (SocketAddr.V4 g.addr, SearchState.Connecting f) ∈ l ∧
        fetchEnv f = .ready (.ok body) ∧
        handle_control_resp (.V4 g.addr) body = .ok g.control_url := by
  intro l
  induction l with
  | nil =>
    intro g h
    exact absurd h (by simp [pollPendingList])
  | cons hd tl ih =>
    intro g h
    obtain ⟨addr, st⟩ := hd
    obtain ⟨ga, gu⟩ := g
    rw [pollPendingList.eq_def] at h
    cases st with
    | Connecting f =>
      rcases hfe : fetchEnv f with _ | r
      · simp [hfe] at h
        obtain ⟨f', body, hmem, hfe', hh⟩ := ih ⟨ga, gu⟩ h
        exact ⟨f', body, List.mem_cons_of_mem _ hmem, hfe', hh⟩
      · rcases r with e | body
        · simp [hfe] at h
        · rcases hh2 : handle_control_resp addr body with e | url
          · simp [hfe, hh2] at h
            obtain ⟨f', body', hmem, hfe', hh⟩ := ih ⟨ga, gu⟩ h
            exact ⟨f', body', List.mem_cons_of_mem _ hmem, hfe', hh⟩
          · cases addr with
            | V4 a4 =>
              simp [hfe, hh2] at h
              obtain ⟨h1, h2⟩ := h
              subst h1
              subst h2
              exact ⟨f, body, List.mem_cons_self _ _, hfe, hh2⟩
            | V6 x =>
              simp [hfe, hh2] at h
              obtain ⟨f', body', hmem, hfe', hh⟩ := ih ⟨ga, gu⟩ h
              exact ⟨f', body', List.mem_cons_of_mem _ hmem, hfe', hh⟩
    | Done url =>
      simp at h
      obtain ⟨f', body', hmem, hfe', hh⟩ := ih ⟨ga, gu⟩ h
      exact ⟨f', body', List.mem_cons_of_mem _ hmem, hfe', hh⟩
    | Error =>
      simp at h
      obtain ⟨f', body', hmem, hfe', hh⟩ := ih ⟨ga, gu⟩ h
      exact ⟨f', body', List.mem_cons_of_mem _ hmem, hfe', hh⟩

/-- C5: in the concurrent search's `poll`, a malformed SSDP datagram — one
whose handling fails (invalid UTF-8, missing LOCATION header, or bad URL) —
never terminates or fails the search: the call behaves exactly as if no
datagram had arrived, and the search continues; whereas a transport-level
error on the UDP socket immediately terminates the search with that I/O
error, the state untouched. -/
theorem c5_malformed_skipped_socket_error_fatal :
    (∀ (mkFetch : SocketAddr → String → Except SearchError Nat)
       (fetchEnv : Nat → FetchPoll) (s : SearchFuture) (sender : SocketAddr)
       (decoded : Option String) (e : SearchError),
      handle_broadcast_resp sender decoded = .error e →
      poll mkFetch fetchEnv s (.readyOk sender decoded) =
        poll mkFetch fetchEnv s .pending) ∧
    (∀ (mkFetch : SocketAddr → String → Except SearchError Nat)
       (fetchEnv : Nat → FetchPoll) (s : SearchFuture) (msg : String),
      poll mkFetch fetchEnv s (.readyErr msg) =
        (.ready (.error (.IoError msg)), s)) := by
  constructor
  · intro mk fe s sender decoded e h
    simp only [poll, h]
  · intro mk fe s msg
    rfl

/-- C5 (witness): a datagram that does not parse as an SSDP response is
skipped — polling with it equals polling with no datagram — and a socket
error is immediately fatal, at concrete inputs. -/
theorem c5_witness :
    poll (fun _ _ => .ok 0) (fun _ => .pending) ⟨[]⟩
        (.readyOk (.V6 7) (some "garbage")) =
      poll (fun _ _ => .ok 0) (fun _ => .pending) ⟨[]⟩ .pending ∧
    poll (fun _ _ => .ok 0) (fun _ => .pending) ⟨[]⟩
        (.readyErr "connection reset") =
      (.ready (.error (.IoError "connection reset")), ⟨[]⟩) :=
  ⟨c5_malformed_skipped_socket_error_fatal.1 (fun _ _ => .ok 0)
      (fun _ => .pending) ⟨[]⟩ (.V6 7) (some "garbage") .InvalidResponse rfl,
   c5_malformed_skipped_socket_error_fatal.2 (fun _ _ => .ok 0)
      (fun _ => .pending) ⟨[]⟩ "connection reset"⟩

/-- C6: over any sequence of poll events, at most one control-URL fetch is
ever started for a given responder address — once the address is in the
pending map it stays there, and a later datagram parsing to a known address
is dropped: the poll call behaves exactly as if no datagram had arrived. -/
theorem c6_at_most_one_fetch_per_address :
    (∀ (s : SearchFuture) (evs : List PollEvent) (a : SocketAddr),
      countStarts s evs a ≤ 1) ∧
    (∀ (mkFetch : SocketAddr → String → Except SearchError Nat)
       (fetchEnv : Nat → FetchPoll) (s : SearchFuture) (sender : SocketAddr)
       (decoded : Option String) (addr : SocketAddr) (path : String),
      handle_broadcast_resp sender decoded = .ok (addr, path) →
      containsKey s.pending addr = true →
      poll mkFetch fetchEnv s (.readyOk sender decoded) =
        poll mkFetch fetchEnv s .pending) := by
  constructor
  · intro s evs a
    exact countStarts_le_one evs s a
  · intro mk fe s sender decoded addr path h hc
    simp only [poll, h, hc, if_true]

/-- C6 (witness): two identical SSDP datagrams start at most one fetch for
the advertised address, and a datagram for an address already pending is
processed exactly like no datagram, at concrete inputs. -/
theorem c6_witness :
    countStarts ⟨[]⟩
      [⟨.readyOk (.V6 7) (some "LOCATION:http://192.168.0.1:5000/desc"),
         fun _ => .pending, fun _ _ => .ok 0⟩,
       ⟨.readyOk (.V6 7) (some "LOCATION:http://192.168.0.1:5000/desc"),
         fun _ => .pending, fun _ _ => .ok 0⟩]
      (.V4 ⟨⟨192, 168, 0, 1⟩, 5000⟩) ≤ 1 ∧
    poll (fun _ _ => .ok 0) (fun _ => .pending)
        ⟨[(.V4 ⟨⟨192, 168, 0, 1⟩, 5000⟩, .Connecting 0)]⟩
        (.readyOk (.V6 7) (some "LOCATION:http://192.168.0.1:5000/desc")) =
      poll (fun _ _ => .ok 0) (fun _ => .pending)
        ⟨[(.V4 ⟨⟨192, 168, 0, 1⟩, 5000⟩, .Connecting 0)]⟩ .pending :=
  ⟨c6_at_most_one_fetch_per_address.1 ⟨[]⟩ _ (.V4 ⟨⟨192, 168, 0, 1⟩, 5000⟩),
   c6_at_most_one_fetch_per_address.2 (fun _ _ => .ok 0) (fun _ => .pending)
      ⟨[(.V4 ⟨⟨192, 168, 0, 1⟩, 5000⟩, .Connecting 0)]⟩ (.V6 7)
      (some "LOCATION:http://192.168.0.1:5000/desc")
      (.V4 ⟨⟨192, 168, 0, 1⟩, 5000⟩) "/desc" rfl rfl⟩

/-- C10: a control-URL fetch that completes successfully for a responder
whose address is not IPv4 is recorded as `Done` but never resolves the
search — the poll outcome is whatever the remaining entries produce — and
every gateway a poll pass does return originates from an entry whose key is
the IPv4 address of that gateway. -/
theorem c10_ipv6_done_never_resolves :
    (∀ (fetchEnv : Nat → FetchPoll) (x f : Nat)
       (rest : List (SocketAddr × SearchState)) (body : Option Element)
       (url : String),
      fetchEnv f = .ready (.ok body) →
      handle_control_resp (.V6 x) body = .ok url →
      pollPendingList fetchEnv ((.V6 x, .Connecting f) :: rest) =
        ((pollPendingList fetchEnv rest).1,
         (.V6 x, .Done url) :: (pollPendingList fetchEnv rest).2)) ∧
    (∀ (fetchEnv : Nat → FetchPoll) (l : List (SocketAddr × SearchState))
       (g : Gateway),
      (pollPendingList fetchEnv l).1 = .ready (.ok g) →
      ∃ f body, (SocketAddr.V4 g.addr, SearchState.Connecting f) ∈ l ∧
        fetchEnv f = .ready (.ok body) ∧
        handle_control_resp (.V4 g.addr) body = .ok g.control_url) := by
  constructor
  · intro fe x f rest body url hfe hh
    rw [pollPendingList.eq_def]
    simp [hfe, hh]
  · exact fun fe l g h => pollPendingList_gateway_origin fe l g h

/-- C10 (witness): with a fetch environment that always completes with a
resolving device description, an IPv6-keyed entry is marked `Done` without
resolving, and a gateway produced by a pass over a single IPv4 entry indeed
originates from that entry. -/
theorem c10_witness :
    pollPendingList (fun _ => .ready (.ok (some wanRoot)))
        [(.V6 7, .Connecting 0)] =
      ((pollPendingList (fun _ => .ready (.ok (some wanRoot))) []).1,
       (.V6 7, .Done "/ctl/IPConn") ::
         (pollPendingList (fun _ => .ready (.ok (some wanRoot))) []).2) ∧
    (∃ f body,
      (SocketAddr.V4 ⟨⟨192, 168, 0, 1⟩, 5000⟩, SearchState.Connecting f) ∈
        [((SocketAddr.V4 ⟨⟨192, 168, 0, 1⟩, 5000⟩ : SocketAddr),
          SearchState.Connecting 0)] ∧
      (fun _ : Nat => FetchPoll.ready (.ok (some wanRoot))) f =
        .ready (.ok body) ∧
      handle_control_resp (.V4 ⟨⟨192, 168, 0, 1⟩, 5000⟩) body =
        .ok "/ctl/IPConn") := by
  constructor
  · exact c10_ipv6_done_never_resolves.1 (fun _ => .ready (.ok (some wanRoot)))
      7 0 [] (some wanRoot) "/ctl/IPConn" rfl
      (by simp [handle_control_resp, parse_control_url, wanRoot,
        nestedWanDevice, wanIpService, parse_control_url_scan_device,
        findWanServiceUrl, Element.getChild, Element.children, Element.name,
        Element.text, List.find?])
  · exact c10_ipv6_done_never_resolves.2 (fun _ => .ready (.ok (some wanRoot)))
      [(.V4 ⟨⟨192, 168, 0, 1⟩, 5000⟩, .Connecting 0)]
      ⟨⟨⟨192, 168, 0, 1⟩, 5000⟩, "/ctl/IPConn"⟩
      (by simp [pollPendingList, handle_control_resp, parse_control_url,
        wanRoot, nestedWanDevice, wanIpService, parse_control_url_scan_device,
        findWanServiceUrl, Element.getChild, Element.children, Element.name,
        Element.text, List.find?])

end Igd
